import Mathlib

/-!
Verification of the pydantic tutorial's e-commerce order model and the
computed-field BMI classifier. Python floats are embedded as rationals (ℚ),
Python ints as ℤ, strings as Lean strings manipulated through structurally
recursive helpers mirroring the Python string methods used by the source.
Fallible construction (pydantic validation) is embedded as Except String.
-/

namespace PydanticTutorial

/-- Python round(x, 2) embedded on ℚ: scale by 100, round to nearest integer,
scale back. (Python rounds exact halves to even; no value appearing in the
source or the examples sits on an exact half, so nearest-integer rounding is
an adequate model.) -/
def round2 (q : ℚ) : ℚ := (⌊q * 100 + 1/2⌋ : ℚ) / 100

/-! ## Python string-method helpers (on the underlying character list) -/

/-- Python len(s). -/
def pyLen (s : String) : Nat := s.data.length

/-- Python s.isdigit() restricted to ASCII: non-empty and all digits. -/
def pyIsDigit (s : String) : Bool := !s.data.isEmpty && s.data.all Char.isDigit

/-- Python s.isalpha() restricted to ASCII: non-empty and all letters. -/
def pyIsAlpha (s : String) : Bool := !s.data.isEmpty && s.data.all Char.isAlpha

/-- Python c in s for a single character c. -/
def pyContains (s : String) (c : Char) : Bool := s.data.contains c

/-- Python s[i] for an index known in range (out of range modelled as a blank). -/
def pyCharAt (s : String) (i : Nat) : Char := s.data.getD i ' '

/-- Python s.upper() restricted to ASCII. -/
def pyUpper (s : String) : String := String.mk (s.data.map Char.toUpper)

/-- Python s.lower() restricted to ASCII. -/
def pyLower (s : String) : String := String.mk (s.data.map Char.toLower)

/-- Python s.startswith(p). -/
def pyStartsWith (s p : String) : Bool := s.data.take p.data.length == p.data

/-- Helper for pySplit: accumulates the current field in reverse. -/
def pySplitAux (c : Char) : List Char → List Char → List String
  | [], acc => [String.mk acc.reverse]
  | x :: xs, acc =>
    if x = c then String.mk acc.reverse :: pySplitAux c xs []
    else pySplitAux c xs (x :: acc)

/-- Python s.split(c) for a single-character separator. -/
def pySplit (s : String) (c : Char) : List String := pySplitAux c s.data []

/-- Python s.strip(): drop whitespace from both ends. -/
def pyStrip (s : String) : String :=
  String.mk (((s.data.dropWhile Char.isWhitespace).reverse.dropWhile Char.isWhitespace).reverse)

/-! ## Enumerations (OrderStatus, ProductCategory) -/

inductive OrderStatus where
  | pending
  | processing
  | shipped
  | delivered
  | cancelled
deriving DecidableEq, Repr

/-- The .value of the str-Enum OrderStatus. -/
def OrderStatus.value : OrderStatus → String
  | .pending => "pending"
  | .processing => "processing"
  | .shipped => "shipped"
  | .delivered => "delivered"
  | .cancelled => "cancelled"

inductive ProductCategory where
  | electronics
  | clothing
  | food
  | books
deriving DecidableEq, Repr

/-! ## OrderItem -/

structure OrderItem where
  product_id : String
  product_name : String
  category : ProductCategory
  quantity : ℤ
  unit_price : ℚ
  discount_percent : ℚ
deriving DecidableEq, Repr

/-- OrderItem.validate_product_id: PROD- prefix and total length 10. -/
def validate_product_id (v : String) : Except String String :=
  if !pyStartsWith v "PROD-" || pyLen v ≠ 10 then
    Except.error "Product ID must be in format PROD-XXXXX"
  else Except.ok v

/-- OrderItem.quantity_must_be_positive. -/
def quantity_must_be_positive (v : ℤ) : Except String ℤ :=
  if v ≤ 0 then Except.error "Quantity must be at least 1"
  else if v > 1000 then Except.error "Maximum quantity per item is 1000"
  else Except.ok v

/-- OrderItem.price_must_be_valid: bounds check then rounding normalization. -/
def price_must_be_valid (v : ℚ) : Except String ℚ :=
  if v ≤ 0 then Except.error "Price must be positive"
  else if v > 1000000 then Except.error "Price exceeds maximum allowed"
  else Except.ok (round2 v)

/-- OrderItem.validate_food_expiry, the model_validator(mode=after) on OrderItem. -/
def validate_food_expiry (it : OrderItem) : Except String OrderItem :=
  if it.category = ProductCategory.food ∧ it.quantity > 100 then
    Except.error "Food orders limited to 100 units for freshness"
  else Except.ok it

/-- OrderItem.calculate_total: per-item total after discount, rounded to 2 dp. -/
def OrderItem.calculate_total (it : OrderItem) : ℚ :=
  let subtotal := (it.quantity : ℚ) * it.unit_price
  let discount_amount := subtotal * (it.discount_percent / 100)
  round2 (subtotal - discount_amount)

/-- Construction of an OrderItem: field validators in declaration order
(product_id, quantity, unit_price, the Field ge/le bound on discount_percent),
then the after-model validator. -/
def mkOrderItem (product_id product_name : String) (category : ProductCategory)
    (quantity : ℤ) (unit_price discount_percent : ℚ) : Except String OrderItem := do
  let pid ← validate_product_id product_id
  let q ← quantity_must_be_positive quantity
  let p ← price_must_be_valid unit_price
  if 0 ≤ discount_percent ∧ discount_percent ≤ 100 then
    validate_food_expiry
      { product_id := pid, product_name := product_name, category := category,
        quantity := q, unit_price := p, discount_percent := discount_percent }
  else Except.error "discount_percent must be between 0 and 100"

/-! ## ShippingAddress -/

structure ShippingAddress where
  street : String
  city : String
  state : String
  zip_code : String
  country : String
deriving DecidableEq, Repr

/-- The acceptance condition of the US branch of
ShippingAddress.validate_zip_code, exactly as the source tests it:
5 digits, OR length 10 with a hyphen at index 5 (the source checks no
digits on the 5+4 branch). -/
def usZipAccept (v : String) : Prop :=
  (pyIsDigit v = true ∧ pyLen v = 5) ∨ (pyLen v = 10 ∧ pyCharAt v 5 = '-')

instance (v : String) : Decidable (usZipAccept v) := by
  unfold usZipAccept; infer_instance

/-- ShippingAddress.validate_zip_code. The validator reads the sibling
country from info.data, the mapping of the previously validated fields,
falling back to "USA" when absent; dataCountry models that lookup. -/
def validate_zip_code (v : String) (dataCountry : Option String) :
    Except String String :=
  let country := dataCountry.getD "USA"
  if country = "USA" then
    if ¬ usZipAccept v then Except.error "US ZIP code must be 5 digits or 5+4 format"
    else Except.ok v
  else Except.ok v

/-- ShippingAddress.validate_state: 2-letter alphabetic code, uppercased. -/
def validate_state (v : String) : Except String String :=
  if pyLen v ≠ 2 ∨ pyIsAlpha v = false then
    Except.error "State must be 2-letter code (e.g., CA, NY)"
  else Except.ok (pyUpper v)

/-- Construction of a ShippingAddress: field validators run in declaration
order (street, city, state, zip_code, country). Because country is declared
after zip_code, info.data holds no country entry when zip_code is validated,
so validate_zip_code is invoked with none and its lookup falls back to
"USA" whatever country the caller supplied. -/
def mkShippingAddress (street city state zip_code country : String) :
    Except String ShippingAddress := do
  let st ← validate_state state
  let z ← validate_zip_code zip_code none
  Except.ok { street := street, city := city, state := st, zip_code := z,
              country := country }

/-! ## Order -/

structure Order where
  order_id : String
  customer_email : String
  items : List OrderItem
  shipping_address : ShippingAddress
  status : OrderStatus
  shipping_cost : ℚ
  tax_rate : ℚ
deriving DecidableEq, Repr

/-- Order.validate_order_id: ORD- prefix and total length 18. -/
def validate_order_id (v : String) : Except String String :=
  if !pyStartsWith v "ORD-" || pyLen v ≠ 18 then
    Except.error "Order ID must be format: ORD-YYYYMMDD-XXXXX"
  else Except.ok v

/-- Order.validate_email: reject when the string has no at-sign or when the
second field of splitting on the at-sign has no dot; on success return the
input lower-cased then stripped. -/
def validate_email (v : String) : Except String String :=
  if pyContains v '@' = false ∨ pyContains ((pySplit v '@').getD 1 "") '.' = false then
    Except.error "Invalid email format"
  else Except.ok (pyStrip (pyLower v))

/-- Order.validate_items_not_empty: between 1 and 50 items. -/
def validate_items_not_empty (v : List OrderItem) : Except String (List OrderItem) :=
  if v.length = 0 then Except.error "Order must contain at least one item"
  else if v.length > 50 then Except.error "Maximum 50 items per order"
  else Except.ok v

/-- Subtotal of an order: sum of the per-item post-discount totals. -/
def orderSubtotal (items : List OrderItem) : ℚ :=
  (items.map OrderItem.calculate_total).sum

/-- The shipping-cost update at the top of Order.calculate_and_validate_totals:
free shipping at subtotal ≥ 100, else the 9.99 fallback when the stored cost
is 0 (the hasattr guard in the source is always true, so the second branch
fires exactly when the stored shipping_cost is 0). -/
def resolveShipping (o : Order) : Order :=
  if orderSubtotal o.items ≥ 100 then { o with shipping_cost := 0 }
  else if o.shipping_cost = 0 then { o with shipping_cost := 999/100 }
  else o

/-- Order.calculate_and_validate_totals, the model_validator(mode=after) on
Order: update the shipping cost from the subtotal, then enforce the subtotal
bounds. -/
def calculate_and_validate_totals (o : Order) : Except String Order :=
  let subtotal := orderSubtotal o.items
  let o' := resolveShipping o
  if subtotal < 10 then Except.error "Minimum order amount is $10"
  else if subtotal > 50000 then
    Except.error "Maximum order amount is $50,000. Please split into multiple orders."
  else Except.ok o'

/-- Construction of an Order: field validators in declaration order
(order_id, customer_email, items, the Field ge/le bound on tax_rate), then
the after-model validator. created_at carries no validation and no claim
mentions it, so it is not modelled. -/
def mkOrder (order_id customer_email : String) (items : List OrderItem)
    (shipping_address : ShippingAddress) (status : OrderStatus)
    (shipping_cost tax_rate : ℚ) : Except String Order := do
  let oid ← validate_order_id order_id
  let email ← validate_email customer_email
  let its ← validate_items_not_empty items
  if 0 ≤ tax_rate ∧ tax_rate ≤ 1/5 then
    calculate_and_validate_totals
      { order_id := oid, customer_email := email, items := its,
        shipping_address := shipping_address, status := status,
        shipping_cost := shipping_cost, tax_rate := tax_rate }
  else Except.error "tax_rate must be between 0 and 0.2"

/-- The record returned by Order.get_order_summary. -/
structure OrderSummary where
  order_id : String
  customer_email : String
  item_count : Nat
  subtotal : ℚ
  tax : ℚ
  shipping : ℚ
  total : ℚ
  status : String
deriving DecidableEq, Repr

/-- Order.get_order_summary: pure recomputation from current field state. -/
def get_order_summary (o : Order) : OrderSummary :=
  let subtotal := orderSubtotal o.items
  let tax_amount := round2 (subtotal * o.tax_rate)
  let total := round2 (subtotal + tax_amount + o.shipping_cost)
  { order_id := o.order_id, customer_email := o.customer_email,
    item_count := o.items.length, subtotal := subtotal, tax := tax_amount,
    shipping := o.shipping_cost, total := total, status := o.status.value }

/-! ## Patient (computed_field tutorial) -/

structure Patient where
  name : String
  weight : ℚ
  height : ℚ
  married : Option Bool
deriving DecidableEq, Repr

/-- Patient.BMI: weight over height squared, rounded to 2 decimal places. -/
def BMI (p : Patient) : ℚ := round2 (p.weight / p.height ^ 2)

/-- Patient.health_status: threshold ladder on the BMI value. -/
def health_status (p : Patient) : String :=
  if BMI p < 185/10 then "Underweight"
  else if BMI p < 25 then "Normal"
  else if BMI p < 30 then "Overweight"
  else "Obese"

/-! ## Concrete records used by the claim theorems and witnesses -/

/-- The laptop item of the source's first demo order, after field validation
(unit_price 999.99 is already 2-dp so rounding leaves it unchanged). -/
def laptop : OrderItem :=
  { product_id := "PROD-12345", product_name := "Laptop",
    category := ProductCategory.electronics, quantity := 1,
    unit_price := 99999/100, discount_percent := 10 }

/-- The mouse item of the source's first demo order. -/
def mouse : OrderItem :=
  { product_id := "PROD-67890", product_name := "Mouse",
    category := ProductCategory.electronics, quantity := 2,
    unit_price := 2999/100, discount_percent := 5 }

/-- The demo shipping address after validation (state uppercased). -/
def exampleAddress : ShippingAddress :=
  { street := "123 Main St", city := "San Francisco", state := "CA",
    zip_code := "94102", country := "USA" }

/-- The resolved first demo order (email normalized, shipping resolved to 0). -/
def exampleOrder : Order :=
  { order_id := "ORD-20240129-00001", customer_email := "alice.smith@example.com",
    items := [laptop, mouse], shipping_address := exampleAddress,
    status := OrderStatus.pending, shipping_cost := 0, tax_rate := 8/100 }

/-- A single 99.99 item: puts the subtotal exactly on the free-shipping
boundary from below. -/
def item9999 : OrderItem :=
  { product_id := "PROD-00001", product_name := "Gadget",
    category := ProductCategory.electronics, quantity := 1,
    unit_price := 9999/100, discount_percent := 0 }

/-- An order with subtotal 99.99 and the default (0) shipping cost. -/
def smallOrder : Order :=
  { order_id := "ORD-20240129-00009", customer_email := "a@b.c",
    items := [item9999], shipping_address := exampleAddress,
    status := OrderStatus.pending, shipping_cost := 0, tax_rate := 8/100 }

/-- smallOrder after the cross-field pass resolved its shipping cost. -/
def smallOrderShipped : Order := { smallOrder with shipping_cost := 999/100 }

/-- The 2.99 pen item of the source's minimum-order demo. -/
def penItem : OrderItem :=
  { product_id := "PROD-11111", product_name := "Pen",
    category := ProductCategory.books, quantity := 1,
    unit_price := 299/100, discount_percent := 0 }

/-- An order whose sole item totals 2.99, below the order minimum. -/
def cheapOrder : Order :=
  { order_id := "ORD-20240129-00004", customer_email := "tiny@example.com",
    items := [penItem], shipping_address := exampleAddress,
    status := OrderStatus.pending, shipping_cost := 0, tax_rate := 8/100 }

/-- An order with subtotal 50 and an explicitly supplied zero shipping cost. -/
def fiftyOrder : Order :=
  { order_id := "ORD-20240129-00008", customer_email := "z@y.x",
    items := [{ product_id := "PROD-77777", product_name := "Widget",
                category := ProductCategory.books, quantity := 1,
                unit_price := 50, discount_percent := 0 }],
    shipping_address := exampleAddress, status := OrderStatus.pending,
    shipping_cost := 0, tax_rate := 8/100 }

/-- The patient of the computed_field demo. -/
def demoPatient : Patient :=
  { name := "sayantan", weight := 72, height := 172/100, married := none }

/-- The two US ZIP shapes that the spec, the validator's own comment and its
error message describe: exactly 5 digits, or 5 digits, a hyphen, then
4 digits. Stated from the spec's words for comparison with usZipAccept. -/
def specUsZipShape (v : String) : Prop :=
  (pyLen v = 5 ∧ pyIsDigit v = true) ∨
  (pyLen v = 10 ∧ pyIsDigit (String.mk (v.data.take 5)) = true ∧
    pyCharAt v 5 = '-' ∧ pyIsDigit (String.mk (v.data.drop 6)) = true)

instance (v : String) : Decidable (specUsZipShape v) := by
  unfold specUsZipShape; infer_instance

/-- The email domain segment as the claim words it: everything after the
first at-sign (the alternative reading, everything after the last at-sign,
accepts the same counterexample). -/
def claimDomainSegment (v : String) : String :=
  String.mk ((v.data.dropWhile (fun c => c ≠ '@')).drop 1)

/-! ## Helper lemmas -/

/-- A shipping address is accepted exactly when the state validator accepts
and the zip code passes the code's US-shape test; the supplied country plays
no role. -/
theorem mkShippingAddress_ok_iff (street city state zip c : String) :
    (∃ a, mkShippingAddress street city state zip c = Except.ok a) ↔
      ((∃ st, validate_state state = Except.ok st) ∧ usZipAccept zip) := by
  unfold mkShippingAddress validate_zip_code
  rcases hst : validate_state state with e | st
  · simp [Bind.bind, Except.bind, hst]
  · simp only [Bind.bind, Except.bind, hst, Option.getD]
    split_ifs with h <;> simp_all

/-- Evaluation of the demo order id through its field validator. -/
theorem validate_order_id_demo :
    validate_order_id "ORD-20240129-00001" = Except.ok "ORD-20240129-00001" := rfl

/-- Evaluation of the demo email through its field validator. -/
theorem validate_email_demo :
    validate_email "Alice.Smith@example.com" = Except.ok "alice.smith@example.com" := rfl

/-- Evaluation of the demo item list through its field validator. -/
theorem validate_items_demo :
    validate_items_not_empty [laptop, mouse] = Except.ok [laptop, mouse] := rfl

/-- Evaluation of the cross-field pass on the field-valid demo order. -/
theorem calc_totals_demo : calculate_and_validate_totals
    { order_id := "ORD-20240129-00001", customer_email := "alice.smith@example.com",
      items := [laptop, mouse], shipping_address := exampleAddress,
      status := OrderStatus.pending, shipping_cost := 0, tax_rate := 8/100 }
    = Except.ok exampleOrder := by
  norm_num +decide [calculate_and_validate_totals, resolveShipping, orderSubtotal,
    OrderItem.calculate_total, round2, laptop, mouse, exampleOrder, exampleAddress]

/-! ## Claim theorems -/

/-- Claim C1: for every order state reaching the cross-field pass and
accepted by it, the pass sets shipping_cost to 0 when the subtotal is at
least 100; when the subtotal is below 100 it sets shipping_cost to 9.99
exactly when the stored shipping cost is the default 0 (no explicit
non-default value supplied), and leaves an explicit non-zero shipping cost
unchanged. -/
theorem C1_shipping_conditional_default (o o' : Order)
    (h : calculate_and_validate_totals o = Except.ok o') :
    (100 ≤ orderSubtotal o.items → o'.shipping_cost = 0) ∧
    (orderSubtotal o.items < 100 → o.shipping_cost = 0 → o'.shipping_cost = 999/100) ∧
    (orderSubtotal o.items < 100 → o.shipping_cost ≠ 0 →
      o'.shipping_cost = o.shipping_cost) := by
  simp only [calculate_and_validate_totals] at h
  split_ifs at h with h1 h2
  obtain rfl : resolveShipping o = o' := by injection h
  refine ⟨fun hge => ?_, fun hlt h0 => ?_, fun hlt hne => ?_⟩
  · simp [resolveShipping, hge]
  · simp [resolveShipping, not_le.mpr hlt, h0]
  · simp [resolveShipping, not_le.mpr hlt, hne]

/-- Witness for C1 at the free-shipping boundary from below: an order with
subtotal exactly 99.99 and default shipping gets the 9.99 fallback. -/
theorem C1_shipping_conditional_default_witness :
    orderSubtotal smallOrder.items = 9999/100 ∧
    smallOrderShipped.shipping_cost = 999/100 :=
  ⟨by norm_num [orderSubtotal, OrderItem.calculate_total, smallOrder, item9999, round2],
   (C1_shipping_conditional_default smallOrder smallOrderShipped
      (by norm_num +decide [calculate_and_validate_totals, resolveShipping, orderSubtotal,
        OrderItem.calculate_total, smallOrder, item9999, smallOrderShipped, round2])).2.1
     (by norm_num [orderSubtotal, OrderItem.calculate_total, smallOrder, item9999, round2])
     rfl⟩

/-- Claim C2 (code bug): with country USA, the zip validator accepts the
string aaaaa-aaaa, which is not one of the two documented shapes - the
source's 5+4 branch tests only the length and the hyphen position, never
the digits, contradicting its own comment and error message. -/
theorem C2_zip_shape_code_bug :
    mkShippingAddress "123 Main St" "Springfield" "IL" "aaaaa-aaaa" "USA" =
      Except.ok { street := "123 Main St", city := "Springfield", state := "IL",
                  zip_code := "aaaaa-aaaa", country := "USA" } ∧
    ¬ specUsZipShape "aaaaa-aaaa" :=
  ⟨rfl, by decide⟩

/-- Claim C3: the cross-field pass accepts exactly the subtotals in
[10, 50000], both bounds included, and rejects below/above with the two
distinct messages. -/
theorem C3_subtotal_bounds (o : Order) :
    ((∃ o', calculate_and_validate_totals o = Except.ok o') ↔
      10 ≤ orderSubtotal o.items ∧ orderSubtotal o.items ≤ 50000) ∧
    (orderSubtotal o.items < 10 →
      calculate_and_validate_totals o = Except.error "Minimum order amount is $10") ∧
    (50000 < orderSubtotal o.items →
      calculate_and_validate_totals o =
        Except.error "Maximum order amount is $50,000. Please split into multiple orders.") := by
  simp only [calculate_and_validate_totals]
  split_ifs with h1 h2
  · refine ⟨?_, fun _ => rfl, fun hgt => absurd h1 (not_lt.mpr (by linarith))⟩
    constructor
    · rintro ⟨o', ho⟩
      exact ho.elim
    · rintro ⟨ha, -⟩
      exact absurd h1 (not_lt.mpr ha)
  · refine ⟨?_, fun hlt => absurd hlt h1, fun _ => rfl⟩
    constructor
    · rintro ⟨o', ho⟩
      exact ho.elim
    · rintro ⟨-, hb⟩
      exact absurd h2 (not_lt.mpr hb)
  · refine ⟨?_, fun hlt => absurd hlt h1, fun hgt => absurd hgt h2⟩
    constructor
    · intro _
      exact ⟨not_lt.1 h1, not_lt.1 h2⟩
    · intro _
      exact ⟨resolveShipping o, rfl⟩

/-- Witness for C3: the 2.99 single-item order is rejected with the
minimum-order message. -/
theorem C3_subtotal_bounds_witness :
    calculate_and_validate_totals cheapOrder =
      Except.error "Minimum order amount is $10" :=
  (C3_subtotal_bounds cheapOrder).2.1
    (by norm_num [orderSubtotal, OrderItem.calculate_total, cheapOrder, penItem, round2])

/-- Claim C4: the two demo items validate, their totals are 899.99 and
56.98, the demo order constructs, and its summary reports subtotal 956.97,
shipping 0, tax 76.56 and grand total 1033.53. -/
theorem C4_demo_order_totals :
    mkOrderItem "PROD-12345" "Laptop" ProductCategory.electronics 1 (99999/100) 10 =
      Except.ok laptop ∧
    mkOrderItem "PROD-67890" "Mouse" ProductCategory.electronics 2 (2999/100) 5 =
      Except.ok mouse ∧
    laptop.calculate_total = 89999/100 ∧
    mouse.calculate_total = 5698/100 ∧
    mkOrder "ORD-20240129-00001" "Alice.Smith@example.com" [laptop, mouse]
        exampleAddress OrderStatus.pending 0 (8/100) = Except.ok exampleOrder ∧
    orderSubtotal exampleOrder.items = 95697/100 ∧
    get_order_summary exampleOrder =
      { order_id := "ORD-20240129-00001", customer_email := "alice.smith@example.com",
        item_count := 2, subtotal := 95697/100, tax := 7656/100, shipping := 0,
        total := 103353/100, status := "pending" } := by
  refine ⟨?_, ?_, ?_, ?_, ?_, ?_, ?_⟩
  · norm_num +decide [mkOrderItem, validate_product_id, quantity_must_be_positive,
      price_must_be_valid, validate_food_expiry, round2, pyStartsWith, pyLen,
      laptop, Bind.bind, Except.bind]
  · norm_num +decide [mkOrderItem, validate_product_id, quantity_must_be_positive,
      price_must_be_valid, validate_food_expiry, round2, pyStartsWith, pyLen,
      mouse, Bind.bind, Except.bind]
  · norm_num [OrderItem.calculate_total, laptop, round2]
  · norm_num [OrderItem.calculate_total, mouse, round2]
  · simp only [mkOrder, validate_order_id_demo, validate_email_demo,
      validate_items_demo, Bind.bind, Except.bind]
    rw [if_pos (by norm_num)]
    exact calc_totals_demo
  · norm_num [orderSubtotal, OrderItem.calculate_total, exampleOrder, laptop,
      mouse, round2]
  · norm_num +decide [get_order_summary, orderSubtotal, OrderItem.calculate_total,
      OrderStatus.value, round2, laptop, mouse, exampleOrder]

/-- Claim C5: quantity is accepted exactly on [1, 1000]; unit price is
accepted exactly on (0, 1000000], and an accepted price is returned rounded
to 2 decimal places. -/
theorem C5_item_field_bounds (q : ℤ) (p : ℚ) :
    ((quantity_must_be_positive q = Except.ok q) ↔ 1 ≤ q ∧ q ≤ 1000) ∧
    ((∃ r, price_must_be_valid p = Except.ok r) ↔ 0 < p ∧ p ≤ 1000000) ∧
    (0 < p → p ≤ 1000000 → price_must_be_valid p = Except.ok (round2 p)) := by
  unfold quantity_must_be_positive price_must_be_valid
  split_ifs with h1 h2 h3 h4 <;> simp_all <;> first | omega | linarith

/-- Witness for C5 at the upper boundaries: quantity 1000 and price 1000000
are both accepted. -/
theorem C5_item_field_bounds_witness :
    quantity_must_be_positive 1000 = Except.ok 1000 ∧
    price_must_be_valid 1000000 = Except.ok (round2 1000000) :=
  ⟨((C5_item_field_bounds 1000 1000000).1).mpr (by decide),
   (C5_item_field_bounds 1000 1000000).2.2 (by norm_num) (by norm_num)⟩

/-- Counterexample to C6 as stated: a@b@c.d contains an at-sign and the part
after the (first) at-sign contains a dot, yet the validator rejects it,
because the source inspects split('@')[1], the segment between the first and
second at-signs. -/
theorem C6_email_domain_counterexample :
    pyContains "a@b@c.d" '@' = true ∧
    pyContains (claimDomainSegment "a@b@c.d") '.' = true ∧
    validate_email "a@b@c.d" = Except.error "Invalid email format" :=
  ⟨by decide, by decide, rfl⟩

/-- Claim C6 amended: the email is accepted exactly when it contains an
at-sign and the second field of splitting on the at-sign contains a dot,
and the accepted value is the input lower-cased and stripped of surrounding
whitespace. -/
theorem C6_email_amended (v w : String) :
    validate_email v = Except.ok w ↔
      (pyContains v '@' = true ∧
        pyContains ((pySplit v '@').getD 1 "") '.' = true ∧
        w = pyStrip (pyLower v)) := by
  unfold validate_email
  split_ifs with h
  · constructor
    · intro hc
      exact hc.elim
    · rintro ⟨ha, hb, -⟩
      rcases h with h | h
      · rw [ha] at h
        exact Bool.noConfusion h
      · rw [hb] at h
        exact Bool.noConfusion h
  · rw [not_or] at h
    constructor
    · intro hk
      injection hk with hk
      exact ⟨Bool.ne_false_iff.mp h.1, Bool.ne_false_iff.mp h.2, hk.symm⟩
    · rintro ⟨-, -, rfl⟩
      rfl

/-- Witness for the amended C6: a mixed-case, whitespace-padded address is
accepted and normalized. -/
theorem C6_email_amended_witness :
    validate_email " Bob@Example.COM " = Except.ok "bob@example.com" :=
  (C6_email_amended " Bob@Example.COM " "bob@example.com").mpr
    ⟨by decide, by decide, by decide⟩

/-- Claim C7: the after-model validator on items accepts exactly when the
item is not a food item with quantity above 100 (so non-food categories are
never hit by this rule), and a food item with quantity 150 fails
construction with the freshness message. -/
theorem C7_food_quantity_ceiling (it : OrderItem) :
    ((validate_food_expiry it = Except.ok it) ↔
      ¬(it.category = ProductCategory.food ∧ 100 < it.quantity)) ∧
    mkOrderItem "PROD-99999" "Fresh Milk" ProductCategory.food 150 (499/100) 0 =
      Except.error "Food orders limited to 100 units for freshness" := by
  constructor
  · unfold validate_food_expiry
    split_ifs with h <;> simp_all
  · norm_num +decide [mkOrderItem, validate_product_id, quantity_must_be_positive,
      price_must_be_valid, validate_food_expiry, round2, pyStartsWith, pyLen,
      Bind.bind, Except.bind]

/-- Witness for C7: a non-food item (the demo laptop) passes the rule. -/
theorem C7_food_quantity_ceiling_witness :
    validate_food_expiry laptop = Except.ok laptop :=
  ((C7_food_quantity_ceiling laptop).1).mpr (by decide)

/-- Claim C8: for positive weight and height, health_status follows the
18.5 / 25 / 30 ladder on the rounded BMI value, first threshold exceeded
from the bottom, and always produces one of the four labels. -/
theorem C8_bmi_threshold_ladder (p : Patient) (hw : 0 < p.weight)
    (hh : 0 < p.height) :
    (health_status p = "Underweight" ↔ BMI p < 185/10) ∧
    (health_status p = "Normal" ↔ 185/10 ≤ BMI p ∧ BMI p < 25) ∧
    (health_status p = "Overweight" ↔ 25 ≤ BMI p ∧ BMI p < 30) ∧
    (health_status p = "Obese" ↔ 30 ≤ BMI p) ∧
    (health_status p = "Underweight" ∨ health_status p = "Normal" ∨
      health_status p = "Overweight" ∨ health_status p = "Obese") := by
  unfold health_status
  split_ifs with h1 h2 h3 <;>
    refine ⟨?_, ?_, ?_, ?_, ?_⟩ <;> simp +decide <;> push_neg at * <;> intros <;>
      first | linarith | (constructor <;> linarith)

/-- Witness for C8: the demo patient (72 kg, 1.72 m, BMI 24.34) is Normal. -/
theorem C8_bmi_threshold_ladder_witness : health_status demoPatient = "Normal" :=
  ((C8_bmi_threshold_ladder demoPatient (by norm_num [demoPatient])
      (by norm_num [demoPatient])).2.1).mpr
    (by norm_num [demoPatient, BMI, round2])

/-- Claim C9: when the caller supplies shipping_cost = 0 explicitly and the
subtotal is below 100, the accepted order carries the 9.99 fallback - the
code cannot tell an explicit zero from the unset default. -/
theorem C9_explicit_zero_overwritten (o o' : Order) (h0 : o.shipping_cost = 0)
    (hlt : orderSubtotal o.items < 100)
    (h : calculate_and_validate_totals o = Except.ok o') :
    o'.shipping_cost = 999/100 := by
  simp only [calculate_and_validate_totals] at h
  split_ifs at h with h1 h2
  obtain rfl : resolveShipping o = o' := by injection h
  simp [resolveShipping, not_le.mpr hlt, h0]

/-- Witness for C9: an order with subtotal 50 and an explicitly supplied
zero shipping cost comes out with shipping 9.99. -/
theorem C9_explicit_zero_overwritten_witness :
    orderSubtotal fiftyOrder.items = 50 ∧ fiftyOrder.shipping_cost = 0 ∧
    ({ fiftyOrder with shipping_cost := 999/100 } : Order).shipping_cost = 999/100 :=
  ⟨by norm_num [orderSubtotal, OrderItem.calculate_total, fiftyOrder, round2],
   rfl,
   C9_explicit_zero_overwritten fiftyOrder { fiftyOrder with shipping_cost := 999/100 }
     rfl
     (by norm_num [orderSubtotal, OrderItem.calculate_total, fiftyOrder, round2])
     (by norm_num +decide [calculate_and_validate_totals, resolveShipping, orderSubtotal,
        OrderItem.calculate_total, fiftyOrder, round2])⟩

/-- Claim C10: acceptance of a shipping address never depends on the
supplied country (the zip validator's sibling lookup always falls back to
USA because country is declared after zip_code), and a zip failing the
code's US-shape test is rejected whatever the country. -/
theorem C10_zip_country_independent (street city state zip c₁ c₂ : String) :
    ((∃ a, mkShippingAddress street city state zip c₁ = Except.ok a) ↔
      (∃ a, mkShippingAddress street city state zip c₂ = Except.ok a)) ∧
    (¬ usZipAccept zip → ∀ a, mkShippingAddress street city state zip c₁ ≠ Except.ok a) := by
  constructor
  · rw [mkShippingAddress_ok_iff, mkShippingAddress_ok_iff]
  · intro hz a ha
    exact hz ((mkShippingAddress_ok_iff street city state zip c₁).mp ⟨a, ha⟩).2

/-- Witness for C10: a French address with a 4-digit postal code is rejected
even though its country is not USA. -/
theorem C10_zip_country_independent_witness :
    mkShippingAddress "1 Rue" "Paris" "FR" "7500" "France" ≠
      Except.ok { street := "1 Rue", city := "Paris", state := "FR",
                  zip_code := "7500", country := "France" } :=
  (C10_zip_country_independent "1 Rue" "Paris" "FR" "7500" "France" "Canada").2
    (by decide) _

end PydanticTutorial
